import Mathlib

/-
Verification development for the Bayrol pool-access API repository.

The Python sources are shallowly embedded:
  * Python dicts become association lists (lookup, insertion-or-update, erase).
  * datetime values are modelled as a pair (minutes, second): everything above
    the seconds field is collapsed into a single minute count; ordering is
    lexicographic, exactly as Python compares the field tuples.
  * Python floats are modelled as rationals; a float value that arrived over
    the wire additionally carries its shortest decimal repr string, because
    handle_sensor_value dispatches on str(value).
  * Fallible code returns Except; functions that mutate state and can raise
    return the mutated-so-far state together with the optional exception,
    mirroring the order of Python side effects.
-/

/-- Association-list lookup, modelling Python dict access d.get(k). -/
def alookup {α : Type} : List (String × α) → String → Option α
  | [], _ => none
  | (k, v) :: rest, key => if k = key then some v else alookup rest key

/-- Association-list insertion-or-update, modelling d[k] = v
(Python dicts update in place, appending new keys at the end). -/
def ainsert {α : Type} : List (String × α) → String → α → List (String × α)
  | [], key, v => [(key, v)]
  | (k, w) :: rest, key, v =>
    if k = key then (k, v) :: rest else (k, w) :: ainsert rest key v

/-- Association-list deletion, modelling del d[k]. -/
def aerase {α : Type} : List (String × α) → String → List (String × α)
  | [], _ => []
  | (k, w) :: rest, key => if k = key then rest else (k, w) :: aerase rest key

/-- datetime.utcnow() values: the fields above seconds are collapsed into a
single count of minutes; the second field is kept separate because
_record_failure manipulates it through datetime.replace. -/
structure DateTime where
  minutes : Nat
  second : Nat
deriving DecidableEq, Repr

/-- Python datetime comparison (lexicographic on the field tuple). -/
def dtLt (a b : DateTime) : Bool :=
  a.minutes < b.minutes || (a.minutes == b.minutes && a.second < b.second)

/-- now + timedelta(minutes=m). -/
def addMinutes (d : DateTime) (m : Nat) : DateTime :=
  { d with minutes := d.minutes + m }

/-- datetime.replace(second=s): CPython validates 0 <= second <= 59 and raises
ValueError otherwise. -/
def pyReplaceSecond (d : DateTime) (s : Nat) : Except String DateTime :=
  if s ≤ 59 then .ok { d with second := s }
  else .error "second must be in 0..59"

/-- NotificationService circuit-breaker state: webhook_failures and
webhook_disabled_until, both keyed by target URL. -/
structure CircuitState where
  failures : List (String × Nat)
  disabled_until : List (String × DateTime)
deriving DecidableEq, Repr

/-- NotificationService.MAX_FAILURES. -/
def MAX_FAILURES : Nat := 5

/-- NotificationService.RESET_TIMEOUT (seconds). -/
def RESET_TIMEOUT : Nat := 300

/-- NotificationService._is_webhook_available: returns the availability flag
together with the state after the expiry-reset side effect. -/
def is_webhook_available (now : DateTime) (st : CircuitState) (url : String) :
    Bool × CircuitState :=
  match alookup st.disabled_until url with
  | some d =>
    if dtLt now d then (false, st)
    else
      (true, { failures := ainsert st.failures url 0,
               disabled_until := aerase st.disabled_until url })
  | none => (true, st)

/-- NotificationService._record_failure: increments the failure counter, and on
reaching MAX_FAILURES calls
datetime.utcnow().replace(second=datetime.utcnow().second + RESET_TIMEOUT).
The two utcnow() calls are modelled by the single argument now.  The increment
happens before replace is evaluated, so the returned state carries it even when
replace raises; the optional second component is the escaping exception. -/
def record_failure (now : DateTime) (st : CircuitState) (url : String) :
    CircuitState × Option String :=
  let count := (alookup st.failures url).getD 0 + 1
  let st1 : CircuitState := { st with failures := ainsert st.failures url count }
  if MAX_FAILURES ≤ count then
    match pyReplaceSecond now (now.second + RESET_TIMEOUT) with
    | .ok d => ({ st1 with disabled_until := ainsert st1.disabled_until url d }, none)
    | .error e => (st1, some e)
  else
    (st1, none)

/-- NotificationService._record_success. -/
def record_success (st : CircuitState) (url : String) : CircuitState :=
  { failures := ainsert st.failures url 0,
    disabled_until := aerase st.disabled_until url }

/-- A row of the Alarm ORM table (app.models.database.Alarm), restricted to the
columns the alarm services read.  Floats are modelled as rationals. -/
structure AlarmRec where
  id : Nat
  sensor_type : String
  name : String
  condition : String
  threshold_min : Option Rat
  threshold_max : Option Rat
  cooldown_minutes : Nat
  last_triggered : Option DateTime
  webhook_url : Option String
  email : Option String
  enabled : Bool
deriving DecidableEq, Repr

/-- The graded branch shared by NotificationService._determine_severity:
deviation above 0.2 is critical, above 0.1 is warning, anything else falls
through to the final return of info. -/
def severity_of_deviation (dev : Rat) : String :=
  if dev > 1/5 then "critical" else if dev > 1/10 then "warning" else "info"

/-- NotificationService._determine_severity.  Option thresholds follow Python
truthiness: a missing threshold and a zero threshold both fail the `and`
guard, so the function falls through to info.  In the out_of_range branch the
source divides by range_size with no guard, so equal thresholds raise
ZeroDivisionError; that is surfaced as an error. -/
def determine_severity (a : AlarmRec) (value : Rat) : Except String String :=
  if a.condition = "above" then
    match a.threshold_max with
    | some t => if t ≠ 0 then .ok (severity_of_deviation ((value - t) / t)) else .ok "info"
    | none => .ok "info"
  else if a.condition = "below" then
    match a.threshold_min with
    | some t => if t ≠ 0 then .ok (severity_of_deviation ((t - value) / t)) else .ok "info"
    | none => .ok "info"
  else if a.condition = "out_of_range" then
    match a.threshold_min, a.threshold_max with
    | some tmin, some tmax =>
      if tmin ≠ 0 ∧ tmax ≠ 0 then
        let range_size := tmax - tmin
        if range_size = 0 then .error "ZeroDivisionError: float division by zero"
        else if value < tmin then .ok (severity_of_deviation ((tmin - value) / range_size))
        else .ok (severity_of_deviation ((value - tmax) / range_size))
      else .ok "info"
    | _, _ => .ok "info"
  else .ok "info"

/-- The condition_met f-string built by AlarmService.check_alarm_conditions,
kept structured (each constructor records the data interpolated into the
corresponding message). -/
inductive CondDesc where
  | aboveDesc (sensor_name formatted_value : String) (t : Rat)
  | belowDesc (sensor_name formatted_value : String) (t : Rat)
  | equalsDesc (sensor_name formatted_value : String) (t : Rat)
  | outOfRangeDesc (sensor_name formatted_value : String) (tmin tmax : Rat)
deriving DecidableEq, Repr

/-- The per-alarm body of the loop in AlarmService.check_alarm_conditions:
cooldown check first, then the condition dispatch; returns the
(alarm, condition_description) pair when the alarm fires. -/
def eval_alarm (now : DateTime) (sensor_name : String) (value : Rat)
    (formatted_value : String) (a : AlarmRec) : Option (AlarmRec × CondDesc) :=
  let inCooldown :=
    match a.last_triggered with
    | some lt => dtLt now (addMinutes lt a.cooldown_minutes)
    | none => false
  if inCooldown then none
  else if a.condition = "above" then
    match a.threshold_max with
    | some t => if value > t then some (a, .aboveDesc sensor_name formatted_value t) else none
    | none => none
  else if a.condition = "below" then
    match a.threshold_min with
    | some t => if value < t then some (a, .belowDesc sensor_name formatted_value t) else none
    | none => none
  else if a.condition = "equals" then
    match a.threshold_min with
    | some t => if value = t then some (a, .equalsDesc sensor_name formatted_value t) else none
    | none => none
  else if a.condition = "out_of_range" then
    match a.threshold_min, a.threshold_max with
    | some tmin, some tmax =>
      if value < tmin ∨ value > tmax then
        some (a, .outOfRangeDesc sensor_name formatted_value tmin tmax)
      else none
    | _, _ => none
  else none

/-- AlarmService.check_alarm_conditions over ORM alarm rows already fetched for
the (device, sensor) pair, at the current time now. -/
def check_alarm_conditions (now : DateTime) (alarms : List AlarmRec)
    (sensor_name : String) (value : Rat) (formatted_value : String) :
    List (AlarmRec × CondDesc) :=
  alarms.filterMap (eval_alarm now sensor_name value formatted_value)

/-- One entry of the Redis alarm-history queue (the history_data dict built by
AlarmService.create_alarm_history).  triggered_at is stored as an isoformat
string in Redis and parsed back with datetime.fromisoformat when the batch is
processed; that round trip is the identity, so the DateTime is carried
directly. -/
structure HistoryItem where
  alarm_id : Nat
  sensor_type : String
  sensor_name : String
  sensor_value : Rat
  formatted_value : String
  condition_met : CondDesc
  triggered_at : DateTime
  notification_sent : Bool
deriving DecidableEq, Repr

/-- The synchronous evaluation step run for one sensor reading
(DeviceManager._check_alarms): check_alarm_conditions followed by
create_alarm_history with queue_for_batch=True for every triggered alarm.
The queued path only lpushes history_data onto the Redis queue (new items on
the left); no Alarm row is written, so the alarm list is returned as it was
received. -/
def check_alarms_step (now : DateTime) (alarms : List AlarmRec)
    (sensor_type sensor_name : String) (value : Rat) (formatted_value : String)
    (queue : List HistoryItem) :
    List (AlarmRec × CondDesc) × List AlarmRec × List HistoryItem :=
  let triggered := check_alarm_conditions now alarms sensor_name value formatted_value
  let queue1 := triggered.foldl
    (fun q p =>
      { alarm_id := p.1.id
        sensor_type := sensor_type
        sensor_name := sensor_name
        sensor_value := value
        formatted_value := formatted_value
        condition_met := p.2
        triggered_at := now
        notification_sent := true } :: q)
    queue
  (triggered, alarms, queue1)

/-- AlarmService.process_alarm_history_batch, restricted to its effect on the
Alarm rows: for every batch item it loads the alarm by id and sets
last_triggered to the item's triggered_at timestamp. -/
def process_alarm_history_batch (batch : List HistoryItem)
    (alarms : List AlarmRec) : List AlarmRec :=
  batch.foldl
    (fun acc item =>
      acc.map (fun a =>
        if a.id = item.alarm_id then { a with last_triggered := some item.triggered_at }
        else a))
    alarms

/-- JSON values occurring in the cached alarm dicts. -/
inductive JsonVal where
  | jstr (s : String)
  | jnum (q : Rat)
  | jnull
deriving DecidableEq, Repr

/-- The shape in which AlarmService.get_active_alarms_for_device hands alarms
to check_alarm_conditions: ORM Alarm objects when read from the database, plain
JSON dicts when served from the Redis cache (redis json.loads). -/
inductive AlarmRepr where
  | orm (a : AlarmRec)
  | jsonDict (fields : List (String × JsonVal))
deriving DecidableEq, Repr

/-- d.isoformat for the cached last_triggered field (any injective rendering of
the two DateTime components models the isoformat string). -/
def isoformat (d : DateTime) : String :=
  toString d.minutes ++ ":" ++ toString d.second

/-- The alarm dict cached by get_active_alarms_for_device (lines 59-71 of
alarm_service.py). -/
def alarm_cache_dict (a : AlarmRec) : List (String × JsonVal) :=
  [ ("id", .jstr (toString a.id)),
    ("sensor_type", .jstr a.sensor_type),
    ("name", .jstr a.name),
    ("condition", .jstr a.condition),
    ("threshold_min", match a.threshold_min with | some q => .jnum q | none => .jnull),
    ("threshold_max", match a.threshold_max with | some q => .jnum q | none => .jnull),
    ("cooldown_minutes", .jnum a.cooldown_minutes),
    ("last_triggered", match a.last_triggered with | some d => .jstr (isoformat d) | none => .jnull),
    ("webhook_url", match a.webhook_url with | some s => .jstr s | none => .jnull),
    ("email", match a.email with | some s => .jstr s | none => .jnull) ]

/-- Python attribute access alarm.name_ on whichever representation the alarm
arrived in: ORM objects expose the column, dicts raise AttributeError. -/
def attr_access {β : Type} (r : AlarmRepr) (attr : String) (f : AlarmRec → β) :
    Except String β :=
  match r with
  | .orm a => .ok (f a)
  | .jsonDict _ =>
    .error ("AttributeError: dict object has no attribute " ++ attr)

/-- The loop body of AlarmService.check_alarm_conditions executed on an alarm
of either representation; every field read goes through attribute access. -/
def eval_alarm_repr (now : DateTime) (sensor_name : String) (value : Rat)
    (formatted_value : String) (r : AlarmRepr) :
    Except String (Option (AlarmRepr × CondDesc)) := do
  let lt ← attr_access r "last_triggered" AlarmRec.last_triggered
  let inCooldown ←
    match lt with
    | some t => do
      let cd ← attr_access r "cooldown_minutes" AlarmRec.cooldown_minutes
      pure (dtLt now (addMinutes t cd))
    | none => pure false
  if inCooldown then
    return none
  let cond ← attr_access r "condition" AlarmRec.condition
  if cond = "above" then
    let tmax ← attr_access r "threshold_max" AlarmRec.threshold_max
    match tmax with
    | some t =>
      if value > t then return some (r, .aboveDesc sensor_name formatted_value t)
      else return none
    | none => return none
  else if cond = "below" then
    let tmin ← attr_access r "threshold_min" AlarmRec.threshold_min
    match tmin with
    | some t =>
      if value < t then return some (r, .belowDesc sensor_name formatted_value t)
      else return none
    | none => return none
  else if cond = "equals" then
    let tmin ← attr_access r "threshold_min" AlarmRec.threshold_min
    match tmin with
    | some t =>
      if value = t then return some (r, .equalsDesc sensor_name formatted_value t)
      else return none
    | none => return none
  else if cond = "out_of_range" then
    let tmin ← attr_access r "threshold_min" AlarmRec.threshold_min
    let tmax ← attr_access r "threshold_max" AlarmRec.threshold_max
    match tmin, tmax with
    | some lo, some hi =>
      if value < lo ∨ value > hi then
        return some (r, .outOfRangeDesc sensor_name formatted_value lo hi)
      else return none
    | _, _ => return none
  else
    return none

/-- AlarmService.check_alarm_conditions over representation-tagged alarms: the
loop aborts with the exception as soon as an attribute access raises. -/
def check_alarm_conditions_repr (now : DateTime) (alarms : List AlarmRepr)
    (sensor_name : String) (value : Rat) (formatted_value : String) :
    Except String (List (AlarmRepr × CondDesc)) :=
  alarms.foldlM
    (fun acc r => do
      let res ← eval_alarm_repr now sensor_name value formatted_value r
      match res with
      | some p => pure (acc ++ [p])
      | none => pure acc)
    []

/-- Python == between the result of dict .get and a string: None == s and
numbers == s are False. -/
def json_eq_str (v : Option JsonVal) (s : String) : Bool :=
  match v with
  | some (.jstr t) => t == s
  | _ => false

/-- AlarmService.get_active_alarms_for_device with use_cache=True: a cache hit
returns the cached JSON dicts filtered by a.get('sensor_type') == sensor_type;
a miss queries enabled alarms of the device for that sensor type from the
database and returns ORM rows. -/
def get_active_alarms_for_device (cache : Option (List (List (String × JsonVal))))
    (db_alarms : List AlarmRec) (sensor_type : String) : List AlarmRepr :=
  match cache with
  | some dicts =>
    (dicts.filter (fun d => json_eq_str (alookup d "sensor_type") sensor_type)).map .jsonDict
  | none =>
    ((db_alarms.filter (fun a => a.enabled && a.sensor_type == sensor_type)).map .orm)

/-- check_alarm_conditions end to end for one sensor reading: fetch the rules
(from cache or database), then evaluate them. -/
def check_alarm_conditions_cached (cache : Option (List (List (String × JsonVal))))
    (db_alarms : List AlarmRec) (now : DateTime) (sensor_type sensor_name : String)
    (value : Rat) (formatted_value : String) :
    Except String (List (AlarmRepr × CondDesc)) :=
  check_alarm_conditions_repr now
    (get_active_alarms_for_device cache db_alarms sensor_type)
    sensor_name value formatted_value

/-- Python values flowing through the sensor pipeline.  A float carries its
shortest decimal repr (what str(value) prints) together with the rational it
denotes, because handle_sensor_value dispatches on str(value). -/
inductive PyVal where
  | pstr (s : String)
  | pint (n : Int)
  | pfloat (rep : String) (q : Rat)
deriving DecidableEq, Repr

/-- str(value). -/
def pyStr : PyVal → String
  | .pstr s => s
  | .pint n => toString n
  | .pfloat rep _ => rep

/-- A Python literal pattern `case n:` matches by ==, so both the int n and the
float n.0 match, while a string never equals an int. -/
def matches_int (v : PyVal) (n : Int) : Bool :=
  match v with
  | .pint m => m == n
  | .pfloat _ q => q == (n : Rat)
  | .pstr _ => false

/-- float(value): ints and floats convert directly, strings are parsed as
(finite) decimal literals, anything else is a ValueError (none). -/
def parse_float (s : String) : Option Rat :=
  let core (t : String) : Option Rat :=
    match t.splitOn "." with
    | [a, b] =>
      match a.toNat?, b.toNat? with
      | some n, some f => some ((n : Rat) + (f : Rat) / ((10 : Rat) ^ b.length))
      | some n, none => if b.isEmpty then some (n : Rat) else none
      | none, some f => if a.isEmpty then some ((f : Rat) / ((10 : Rat) ^ b.length)) else none
      | none, none => none
    | [a] => (a.toNat?).map (fun n => (n : Rat))
    | _ => none
  if s.startsWith "-" then (core (s.drop 1)).map (fun q => -q) else core s

/-- float(value) on a PyVal. -/
def py_float_of : PyVal → Option Rat
  | .pint n => some (n : Rat)
  | .pfloat _ q => some q
  | .pstr s => parse_float s

/-- int(q): Python int() truncates toward zero. -/
def py_int (q : Rat) : Int :=
  if 0 ≤ q then q.floor else -((-q).floor)

/-- The value handle_sensor_value returns, tagged by the branch that produced
it: a label from one of the two hard-coded enumeration matches, the
coefficient-scaled number float(value)/coefficient, str(value) for the
coefficient -1 case, or the incoming value passed through unchanged (also the
fallback when float conversion or the division raises). -/
inductive Decoded where
  | enumLabel (s : String)
  | scaled (q : Rat)
  | asString (s : String)
  | unchanged (v : PyVal)
deriving DecidableEq, Repr

/-- app.core.sensor_handler sensor configuration dict (always created through
create_sensor_config, so every key is present). -/
structure SensorConfig where
  name : String
  device_class : Option String
  state_class : Option String
  coefficient : Option Rat
  unit_of_measurement : Option String
  entity_type : String
  options : Option (List PyVal)
deriving DecidableEq, Repr

/-- app.core.const.create_sensor_config (arguments in source order; the Python
defaults are supplied explicitly at each call site below). -/
def create_sensor_config (name : String) (device_class : Option String)
    (state_class : Option String) (coefficient : Option Rat)
    (unit_of_measurement : Option String) (entity_type : String)
    (options : Option (List PyVal)) : SensorConfig :=
  { name := name
    device_class := device_class
    state_class := state_class
    coefficient := coefficient
    unit_of_measurement := unit_of_measurement
    entity_type := entity_type
    options := options }

/-- app.core.sensor_handler.handle_sensor_value: the str(value) match, then the
numeric match, then the coefficient fallback chain. -/
def handle_sensor_value (cfg : SensorConfig) (v : PyVal) : Decoded :=
  let s := pyStr v
  if s = "19.18" then .enumLabel "On"
  else if s = "19.19" then .enumLabel "Off"
  else if s = "19.195" then .enumLabel "Auto"
  else if s = "19.115" then .enumLabel "Auto Plus"
  else if s = "19.106" then .enumLabel "Constant production"
  else if s = "19.177" then .enumLabel "On"
  else if s = "19.176" then .enumLabel "Off"
  else if s = "19.257" then .enumLabel "Missing"
  else if s = "19.258" then .enumLabel "Not Empty"
  else if s = "19.259" then .enumLabel "Empty"
  else if matches_int v 7001 then .enumLabel "On"
  else if matches_int v 7002 then .enumLabel "Off"
  else if matches_int v 7521 then .enumLabel "Full"
  else if matches_int v 7522 then .enumLabel "Low"
  else if matches_int v 7523 then .enumLabel "Empty"
  else if matches_int v 7524 then .enumLabel "Ok"
  else if matches_int v 7525 then .enumLabel "Info"
  else if matches_int v 7526 then .enumLabel "Warning"
  else if matches_int v 7527 then .enumLabel "Alarm"
  else
    match cfg.coefficient with
    | some c =>
      if c ≠ -1 then
        match py_float_of v with
        | some q => if c = 0 then .unchanged v else .scaled (q / c)
        | none => .unchanged v
      else .asString s
    | none => .unchanged v

/-- The float(value) if isinstance(value, (int, float)) else 0.0 conversion
DeviceManager._check_alarms applies to the decoded sensor value before calling
check_alarm_conditions. -/
def alarm_value_arg (v : Decoded) : Rat :=
  match v with
  | .enumLabel _ => 0
  | .asString _ => 0
  | .scaled q => q
  | .unchanged u =>
    match u with
    | .pint n => (n : Rat)
    | .pfloat _ q => q
    | .pstr _ => 0

/-- app.core.const.VALUE_TO_MQTT_AUTOMATIC. -/
def VALUE_TO_MQTT_AUTOMATIC : List (String × String) :=
  [ ("0.25x", "19.3"),
    ("0.5x", "19.4"),
    ("0.75x", "19.5"),
    ("1.0x", "19.6"),
    ("1.25x", "19.7"),
    ("1.5x", "19.8"),
    ("2x", "19.9"),
    ("3x", "19.10"),
    ("5x", "19.11"),
    ("10x", "19.12"),
    ("On", "19.17"),
    ("Off", "19.18"),
    ("Constant production", "19.106"),
    ("Auto Plus", "19.115"),
    ("Auto", "19.195"),
    ("Full", "19.258"),
    ("Empty", "19.259") ]

/-- app.core.const.VALUE_TO_MQTT_PM5. -/
def VALUE_TO_MQTT_PM5 : List (String × String) :=
  [ ("On", "7408"),
    ("Off", "7407"),
    ("Auto", "7427") ]

/-- Python list(range(start, stop)) for start < stop. -/
def range_up (start stop : Nat) : List Nat :=
  (List.range (stop - start)).map (fun i => start + i)

/-- Python list(range(start, stop, -step)) for start > stop, step > 0. -/
def range_down (start stop step : Nat) : List Nat :=
  (List.range ((start - stop + step - 1) / step)).map (fun i => start - step * i)

/-- The float n/10 as Python writes it (used for the tenth-spaced option
lists such as pH targets). -/
def tenth_float (n : Nat) : PyVal :=
  .pfloat (toString (n / 10) ++ "." ++ toString (n % 10)) ((n : Rat) / 10)

/-- app.core.const.SENSOR_TYPES_AUTOMATIC. -/
def SENSOR_TYPES_AUTOMATIC : List (String × SensorConfig) :=
  [ ("4.2", create_sensor_config "pH Target" (some "ph") (some "measurement")
      (some 10) none "select" (some ((range_up 62 83).map tenth_float))),
    ("4.3", create_sensor_config "pH Alert Max" (some "ph") (some "measurement")
      (some 10) none "select" (some ((range_up 72 88).map tenth_float))),
    ("4.4", create_sensor_config "pH Alert Min" (some "ph") (some "measurement")
      (some 10) none "select" (some ((range_up 57 73).map tenth_float))),
    ("4.5", create_sensor_config "pH Dosing Control Time Interval" none
      (some "measurement") (some 1) (some "min") "sensor" none),
    ("4.7", create_sensor_config "Minutes Counter / Reset every hour" none
      (some "measurement") (some 1) (some "min") "sensor" none),
    ("4.26", create_sensor_config "Redox Alert Max" (some "voltage") (some "measurement")
      (some 1) (some "mV") "select" (some ((range_down 995 495 5).map .pint))),
    ("4.27", create_sensor_config "Redox Alert Min" (some "voltage") (some "measurement")
      (some 1) (some "mV") "select" (some ((range_down 850 195 5).map .pint))),
    ("4.28", create_sensor_config "Redox Target" (some "voltage") (some "measurement")
      (some 1) (some "mV") "select" (some ((range_down 950 395 5).map .pint))),
    ("4.34", create_sensor_config "Minimal Approach to Control the pH" none
      (some "measurement") (some 100) none "sensor" none),
    ("4.37", create_sensor_config "Start Delay" none none (some 1) (some "min")
      "select" (some ((range_up 1 61).map .pint))),
    ("4.38", create_sensor_config "pH Dosing Cycle" none (some "measurement")
      (some 1) (some "s") "sensor" none),
    ("4.47", create_sensor_config "pH Dosing Speed" none (some "measurement")
      (some 1) (some "%") "sensor" none),
    ("4.67", create_sensor_config "SW Version" none (some "measurement")
      (some 100) none "sensor" none),
    ("4.68", create_sensor_config "SW Date" none none (some (-1)) none "sensor" none),
    ("4.69", create_sensor_config "Hourly Counter / Reset every 24h" none
      (some "measurement") (some 1) (some "h") "sensor" none),
    ("4.82", create_sensor_config "Redox" (some "voltage") (some "measurement")
      (some 1) (some "mV") "sensor" none),
    ("4.89", create_sensor_config "pH Dosing Rate" none (some "measurement")
      (some 1) (some "%") "sensor" none),
    ("4.98", create_sensor_config "Temperature" (some "temperature") (some "measurement")
      (some 10) (some "°C") "sensor" none),
    ("4.102", create_sensor_config "Conductivity" none (some "measurement")
      (some 10) (some "mS/cm") "sensor" none),
    ("4.107", create_sensor_config "Battery Voltage" (some "voltage") (some "measurement")
      (some 100) (some "V") "sensor" none),
    ("4.182", create_sensor_config "pH" (some "ph") (some "measurement")
      (some 10) none "sensor" none),
    ("5.3", create_sensor_config "pH Production Rate" none none none none "select"
      (some (["0.25x", "0.5x", "0.75x", "1.0x", "1.25x", "1.5x", "2x", "3x", "5x", "10x"].map .pstr))),
    ("5.80", create_sensor_config "pH Minus Canister Status" none none none none "sensor" none),
    ("5.98", create_sensor_config "Filtration" none none none none "sensor" none) ]

/-- app.core.const.SENSOR_TYPES_AUTOMATIC_SALT (the base dict spread first,
then the SALT-specific entries). -/
def SENSOR_TYPES_AUTOMATIC_SALT : List (String × SensorConfig) :=
  SENSOR_TYPES_AUTOMATIC ++
  [ ("4.51", create_sensor_config "Polarity Reversal Times" none (some "measurement")
      (some 1) (some "min") "sensor" none),
    ("4.66", create_sensor_config "Minimum Redox Produktion" none none (some 1)
      (some "%") "select"
      (some (([100, 95, 90, 85, 80, 75, 70, 65, 60, 55, 50, 45, 40, 35, 30, 25, 20, 15] :
        List Int).map .pint))),
    ("4.91", create_sensor_config "Electrolyzer Production Rate" none (some "measurement")
      (some 1) (some "%") "sensor" none),
    ("4.100", create_sensor_config "Salt" none (some "measurement")
      (some 10) (some "g/l") "sensor" none),
    ("4.104", create_sensor_config "Electrolyzer Voltage" (some "voltage") (some "measurement")
      (some 10) (some "V") "sensor" none),
    ("4.105", create_sensor_config "Electrolyzer Current" (some "current") (some "measurement")
      (some 10) (some "A") "sensor" none),
    ("4.112", create_sensor_config "Time Before Next Polarity Reversal" none (some "measurement")
      (some 1) (some "s") "sensor" none),
    ("4.119", create_sensor_config "Time Since Polarity Reversal" none (some "measurement")
      (some 1) (some "s") "sensor" none),
    ("4.144", create_sensor_config "Salt Preferred Level" none (some "measurement")
      (some 10) (some "g/l") "select" (some ((range_up 10 51).map tenth_float))),
    ("5.40", create_sensor_config "Redox ON / OFF" none none none none "select"
      (some (["On", "Off"].map .pstr))),
    ("5.41", create_sensor_config "Redox Mode" none none none none "select"
      (some (["Auto", "Auto Plus", "Constant production"].map .pstr))) ]

/-- app.core.const.SENSOR_TYPES_AUTOMATIC_CL_PH. -/
def SENSOR_TYPES_AUTOMATIC_CL_PH : List (String × SensorConfig) :=
  SENSOR_TYPES_AUTOMATIC ++
  [ ("4.90", create_sensor_config "Cl Dosing Rate" none (some "measurement")
      (some 1) (some "%") "sensor" none),
    ("5.175", create_sensor_config "Cl Adjust Dosing Amount" none (some "measurement")
      (some 1) (some "%") "select"
      (some (["0.25x", "0.5x", "0.75x", "1.0x", "1.25x", "1.5x", "2x", "3x", "5x", "10x"].map .pstr))),
    ("5.169", create_sensor_config "Cl Canister Status" none none none none "sensor" none) ]

/-- app.core.const.SENSOR_TYPES_PM5_CHLORINE. -/
def SENSOR_TYPES_PM5_CHLORINE : List (String × SensorConfig) :=
  [ ("4.3001", create_sensor_config "pH Target" (some "ph") (some "measurement")
      (some 100) none "select" (some ((range_up 62 83).map tenth_float))),
    ("4.3002", create_sensor_config "pH Alert Min" (some "ph") (some "measurement")
      (some 100) none "select" (some ((range_up 57 73).map tenth_float))),
    ("4.3003", create_sensor_config "pH Alert Max" (some "ph") (some "measurement")
      (some 100) none "select" (some ((range_up 72 88).map tenth_float))),
    ("4.3049", create_sensor_config "Redox Target" none (some "measurement")
      (some 1) (some "mV") "select" (some ((range_down 950 395 5).map .pint))),
    ("4.3051", create_sensor_config "Redox Alert Min" none (some "measurement")
      (some 1) (some "mV") "select" (some ((range_down 850 195 5).map .pint))),
    ("4.3053", create_sensor_config "Redox Alert Max" none (some "measurement")
      (some 1) (some "mV") "select" (some ((range_down 995 495 5).map .pint))),
    ("4.4001", create_sensor_config "pH" (some "ph") (some "measurement")
      (some 100) none "sensor" none),
    ("4.4022", create_sensor_config "Redox" none (some "measurement")
      (some 1) (some "mV") "sensor" none),
    ("4.4033", create_sensor_config "Water Temperature" (some "temperature") (some "measurement")
      (some 10) (some "°C") "sensor" none),
    ("4.4069", create_sensor_config "Air Temperature" (some "temperature") (some "measurement")
      (some 10) (some "°C") "sensor" none),
    ("4.4132", create_sensor_config "Active Alarms" none (some "measurement")
      (some 1) none "sensor" none),
    ("5.5433", create_sensor_config "Out 1" none none none none "select"
      (some (["On", "Off", "Auto"].map .pstr))),
    ("5.5434", create_sensor_config "Out 2" none none none none "select"
      (some (["On", "Off", "Auto"].map .pstr))),
    ("5.5435", create_sensor_config "Out 3" none none none none "select"
      (some (["On", "Off", "Auto"].map .pstr))),
    ("5.5436", create_sensor_config "Out 4" none none none none "select"
      (some (["On", "Off", "Auto"].map .pstr))),
    ("5.6012", create_sensor_config "pH Pump" none none none none "sensor" none),
    ("5.6015", create_sensor_config "Redox Pump Status" none none none none "sensor" none),
    ("5.6064", create_sensor_config "pH Canister Level" none none none none "sensor" none),
    ("5.6065", create_sensor_config "pH Status" none none none none "sensor" none),
    ("5.6068", create_sensor_config "Redox Canister Level" none none none none "sensor" none),
    ("5.6069", create_sensor_config "Redox Status" none none none none "sensor" none) ]

/-- app.core.const.get_sensor_types_for_device. -/
def get_sensor_types_for_device (device_type : String) : List (String × SensorConfig) :=
  if device_type = "Automatic SALT" then SENSOR_TYPES_AUTOMATIC_SALT
  else if device_type = "Automatic Cl-pH" then SENSOR_TYPES_AUTOMATIC_CL_PH
  else if device_type = "PM5 Chlorine" then SENSOR_TYPES_PM5_CHLORINE
  else []

/-- app.core.sensor_handler._get_sensor_config_for_id. -/
def get_sensor_config_for_id (device_type sensor_id : String) : Option SensorConfig :=
  alookup (get_sensor_types_for_device device_type) sensor_id

/-- app.core.sensor_handler.get_mqtt_value_for_select.  For the two Automatic
families and for PM5 the function returns the enumeration-table lookup
directly (None when the display value is not a label).  Only for any other
device type does control reach the numeric fallback, which looks up the sensor
config (found in no table, since get_sensor_types_for_device returns the empty
dict there), so it falls through to returning the display value unchanged.
The fallback multiplication str(int(float(display_value) * coefficient)) is
embedded with exact rationals in place of binary floats; a false coefficient
(None or 0) or an unparsable display value skips it. -/
def get_mqtt_value_for_select (device_type sensor_id display_value : String) :
    Option String :=
  if device_type = "Automatic SALT" ∨ device_type = "Automatic Cl-pH" then
    alookup VALUE_TO_MQTT_AUTOMATIC display_value
  else if device_type = "PM5 Chlorine" then
    alookup VALUE_TO_MQTT_PM5 display_value
  else
    match get_sensor_config_for_id device_type sensor_id with
    | some cfg =>
      match cfg.coefficient with
      | some c =>
        if c ≠ 0 ∧ c ≠ -1 then
          match parse_float display_value with
          | some q => some (toString (py_int (q * c)))
          | none => some display_value
        else some display_value
      | none => some display_value
    | none => some display_value

/-- What the network does for one webhook POST: an HTTP response, a timeout,
or some other client exception. -/
inductive SendOutcome where
  | http (status : Nat) (text : String)
  | timedOut
  | clientError (msg : String)
deriving DecidableEq, Repr

/-- The dict NotificationService._send_webhook returns for one delivery, or the
exception that escapes the coroutine (captured by gather with
return_exceptions=True). -/
inductive SendResult where
  | okResult (status : Nat) (response : String)
  | failResult (status : Option Nat) (error : String)
  | raisedResult (msg : String)
deriving DecidableEq, Repr

/-- NotificationService._send_webhook for one target.  On a non-2xx status
_record_failure runs inside the try block, so a ValueError raised there is
caught by the generic except handler, which calls _record_failure a second
time; that second raise escapes the coroutine.  In the timeout and generic
exception handlers _record_failure runs inside the handler itself, so a raise
there escapes directly. -/
def send_webhook (now : DateTime) (st : CircuitState) (url nt : String)
    (outcome : SendOutcome) : CircuitState × SendResult :=
  match outcome with
  | .http status text =>
    if 200 ≤ status ∧ status < 300 then
      (record_success st url, .okResult status (text.take 500))
    else
      let p1 := record_failure now st url
      match p1.2 with
      | none =>
        (p1.1, .failResult (some status)
          ("HTTP " ++ toString status ++ ": " ++ text.take 500))
      | some _ =>
        let p2 := record_failure now p1.1 url
        (p2.1, .raisedResult ((p2.2).getD "second must be in 0..59"))
  | .timedOut =>
    let p1 := record_failure now st url
    match p1.2 with
    | none => (p1.1, .failResult none ("Webhook " ++ nt ++ " timeout after 30s"))
    | some m => (p1.1, .raisedResult m)
  | .clientError msg =>
    let p1 := record_failure now st url
    match p1.2 with
    | none => (p1.1, .failResult none ("Webhook " ++ nt ++ " error: " ++ msg))
    | some m => (p1.1, .raisedResult m)

/-- The two webhook URLs read from app.config.settings. -/
structure NotifySettings where
  ALARM_WEBHOOK_URL : Option String
  EMAIL_WEBHOOK_URL : Option String
deriving DecidableEq, Repr

/-- One guard of send_alarm_notification: a configured URL contributes a task
only when _is_webhook_available says yes at this moment (threading its reset
side effect through); an unconfigured or unavailable target contributes
nothing. -/
def maybe_task (now : DateTime) (st : CircuitState) (opt : Option String)
    (nt : String) : List (String × String) × CircuitState :=
  match opt with
  | some u =>
    let q := is_webhook_available now st u
    (if q.1 then [(u, nt)] else [], q.2)
  | none => ([], st)

/-- The task-collection phase of NotificationService.send_alarm_notification
(lines 104-123): the alarm-specific webhook, the global webhook and (guarded
by alarm.email being set) the email webhook, in that order. -/
def collect_webhook_tasks (alarm : AlarmRec) (settings : NotifySettings)
    (now : DateTime) (st : CircuitState) :
    List (String × String) × CircuitState :=
  let p1 := maybe_task now st alarm.webhook_url "alarm_webhook"
  let p2 := maybe_task now p1.2 settings.ALARM_WEBHOOK_URL "global_webhook"
  let p3 :=
    match alarm.email with
    | some _ => maybe_task now p2.2 settings.EMAIL_WEBHOOK_URL "email"
    | none => ([], p2.2)
  (p1.1 ++ p2.1 ++ p3.1, p3.2)

/-- NotificationService.send_alarm_notification.  Returns the list of target
URLs actually posted to, the circuit state after all side effects, and the
function's outcome.  base_payload computes the severity before any delivery,
so a ZeroDivisionError there aborts the call with no network traffic.  When at
least one task ran, the result-collection loop dereferences coro.cr_frame on
an already-completed coroutine, which is None in CPython, so the call raises
AttributeError after the deliveries; only when no task was created does it
return the (empty) results dict. -/
def send_alarm_notification (alarm : AlarmRec) (settings : NotifySettings)
    (value : Rat) (now : DateTime) (st : CircuitState)
    (net : String → String → SendOutcome) :
    List String × CircuitState × Except String (List (String × SendResult)) :=
  match determine_severity alarm value with
  | .error e => ([], st, .error e)
  | .ok _ =>
    let p := collect_webhook_tasks alarm settings now st
    match p.1 with
    | [] => ([], p.2, .ok [])
    | _ =>
      let stF := p.1.foldl (fun s t => (send_webhook now s t.1 t.2 (net t.1 t.2)).1) p.2
      (p.1.map Prod.fst, stF,
        .error "AttributeError: NoneType object has no attribute f_locals")

/-- The request body for alarm creation, before pydantic validation.  A field
value of none means the field was not supplied (pydantic then applies the
default without running the field validator); some v is the supplied value,
itself optional because the thresholds may be supplied as JSON null. -/
structure AlarmCreateInput where
  sensor_type : String
  name : String
  condition : String
  threshold_min : Option (Option Rat)
  threshold_max : Option (Option Rat)
deriving DecidableEq, Repr

/-- AlarmBase.validate_thresholds (schemas.py): the checks read condition and
the thresholds exclusively from `values`, the dict of previously validated
fields, never from the field value v being validated. -/
def validate_thresholds (v : Option Rat) (values_condition : Option String)
    (values_threshold_min values_threshold_max : Option Rat) :
    Except String (Option Rat) :=
  if values_condition = some "above" ∧ values_threshold_max = none then
    .error "threshold_max is required for \"above\" condition"
  else if values_condition = some "below" ∧ values_threshold_min = none then
    .error "threshold_min is required for \"below\" condition"
  else if values_condition = some "out_of_range" ∧
      (values_threshold_min = none ∨ values_threshold_max = none) then
    .error "Both threshold_min and threshold_max are required for \"out_of_range\" condition"
  else .ok v

/-- The threshold-relevant part of a validated AlarmBase. -/
structure AlarmValidated where
  condition : String
  threshold_min : Option Rat
  threshold_max : Option Rat
deriving DecidableEq, Repr

/-- Pydantic validation of AlarmBase.  Fields are validated in declaration
order (sensor_type, name, condition, threshold_min, threshold_max, ...), and
the `values` dict a validator receives holds only the fields validated before
it: when threshold_min is validated neither threshold is in `values` yet, and
when threshold_max is validated only threshold_min is (values.get of an absent
key gives None either way).  A validator without always=True is skipped for a
field that was not supplied. -/
def validate_alarm_base (inp : AlarmCreateInput) : Except String AlarmValidated :=
  if ¬ (inp.condition = "above" ∨ inp.condition = "below" ∨
        inp.condition = "equals" ∨ inp.condition = "out_of_range") then
    .error "condition: value is not a valid enumeration member"
  else do
    let tmin ←
      match inp.threshold_min with
      | some v => validate_thresholds v (some inp.condition) none none
      | none => pure none
    let tmax ←
      match inp.threshold_max with
      | some v => validate_thresholds v (some inp.condition) tmin none
      | none => pure none
    pure { condition := inp.condition, threshold_min := tmin, threshold_max := tmax }

theorem alookup_ainsert_ne {α : Type} (l : List (String × α)) (k u : String) (v : α)
    (h : k ≠ u) : alookup (ainsert l k v) u = alookup l u := by
  induction l with
  | nil => simp [ainsert, alookup, h]
  | cons p rest ih =>
    obtain ⟨k0, w⟩ := p
    by_cases hk : k0 = k
    · subst hk
      simp [ainsert, alookup, h]
    · simp [ainsert, alookup, hk]
      by_cases hu : k0 = u
      · simp [hu]
      · simp [hu, ih]

theorem alookup_aerase_ne {α : Type} (l : List (String × α)) (k u : String)
    (h : k ≠ u) : alookup (aerase l k) u = alookup l u := by
  induction l with
  | nil => simp [aerase, alookup]
  | cons p rest ih =>
    obtain ⟨k0, w⟩ := p
    by_cases hk : k0 = k
    · subst hk
      simp [aerase, alookup, h]
    · simp [aerase, alookup, hk]
      by_cases hu : k0 = u
      · simp [hu]
      · simp [hu, ih]

theorem alookup_ainsert_self {α : Type} (l : List (String × α)) (k : String) (v : α) :
    alookup (ainsert l k v) k = some v := by
  induction l with
  | nil => simp [ainsert, alookup]
  | cons p rest ih =>
    obtain ⟨k0, w⟩ := p
    by_cases hk : k0 = k
    · simp [ainsert, alookup, hk]
    · simp [ainsert, alookup, hk, ih]

/-- C1: on the delivery failure that brings a target URL's consecutive-failure
count to 5, _record_failure does not set disabled_until to now + 300 seconds
and does not reset the counter: datetime.replace(second=second + 300) always
raises ValueError (second must be in 0..59), so the call raises after having
incremented the counter, leaving disabled_until untouched. -/
theorem c1_record_failure_raises (now : DateTime) (st : CircuitState) (url : String)
    (h : 4 ≤ (alookup st.failures url).getD 0) :
    (record_failure now st url).2 = some "second must be in 0..59" ∧
    alookup (record_failure now st url).1.failures url =
      some ((alookup st.failures url).getD 0 + 1) ∧
    (record_failure now st url).1.disabled_until = st.disabled_until := by
  have h5 : MAX_FAILURES ≤ (alookup st.failures url).getD 0 + 1 := by
    unfold MAX_FAILURES
    omega
  have hrep : pyReplaceSecond now (now.second + RESET_TIMEOUT) =
      .error "second must be in 0..59" := by
    unfold pyReplaceSecond RESET_TIMEOUT
    have hns : ¬ (now.second + 300 ≤ 59) := by omega
    simp [hns]
  unfold record_failure
  simp [h5, hrep, alookup_ainsert_self]

/-- C1 witness: the fifth consecutive failure for a concrete URL at a concrete
clock time. -/
theorem c1_record_failure_raises_witness :
    4 ≤ (alookup (CircuitState.mk [("http://hook", 4)] []).failures "http://hook").getD 0 ∧
    ((record_failure ⟨7, 30⟩ ⟨[("http://hook", 4)], []⟩ "http://hook").2 =
        some "second must be in 0..59" ∧
      alookup (record_failure ⟨7, 30⟩ ⟨[("http://hook", 4)], []⟩ "http://hook").1.failures
          "http://hook" =
        some ((alookup (CircuitState.mk [("http://hook", 4)] []).failures "http://hook").getD 0 + 1) ∧
      (record_failure ⟨7, 30⟩ ⟨[("http://hook", 4)], []⟩ "http://hook").1.disabled_until =
        (CircuitState.mk [("http://hook", 4)] []).disabled_until) :=
  ⟨by decide, c1_record_failure_raises ⟨7, 30⟩ ⟨[("http://hook", 4)], []⟩ "http://hook" (by decide)⟩

/-- C7: severity is determined by the relative deviation alone: for an above
rule with a non-zero threshold, deviation (value - t)/t above 1/5 gives
critical, above 1/10 gives warning, and anything else gives info; an equals
condition always gives info; a zero (or missing) threshold short-circuits to
info instead of dividing by zero; and for threshold 100 the value 125 is
critical while 105 is info. -/
theorem c7_determine_severity_graded :
    (∀ (a : AlarmRec) (v t : Rat), a.condition = "above" → a.threshold_max = some t →
      t ≠ 0 →
      determine_severity a v =
        .ok (if (v - t) / t > 1/5 then "critical"
             else if (v - t) / t > 1/10 then "warning" else "info")) ∧
    (∀ (a : AlarmRec) (v : Rat), a.condition = "equals" →
      determine_severity a v = .ok "info") ∧
    (∀ (a : AlarmRec) (v : Rat), a.condition = "above" → a.threshold_max = some 0 →
      determine_severity a v = .ok "info") ∧
    (∀ (a : AlarmRec) (v : Rat), a.condition = "above" → a.threshold_max = none →
      determine_severity a v = .ok "info") ∧
    (∀ (a : AlarmRec), a.condition = "above" → a.threshold_max = some 100 →
      determine_severity a 125 = .ok "critical" ∧ determine_severity a 105 = .ok "info") := by
  refine ⟨?_, ?_, ?_, ?_, ?_⟩
  · intro a v t hc ht htne
    simp [determine_severity, severity_of_deviation, hc, ht, htne]
  · intro a v hc
    simp [determine_severity, hc]
  · intro a v hc ht
    simp [determine_severity, hc, ht]
  · intro a v hc ht
    simp [determine_severity, hc, ht]
  · intro a hc ht
    constructor
    · simp [determine_severity, severity_of_deviation, hc, ht]
      norm_num
    · simp [determine_severity, severity_of_deviation, hc, ht]
      norm_num

/-- C7 witness: the two worked examples evaluated on a concrete above rule
with threshold_max = 100. -/
theorem c7_determine_severity_graded_witness :
    determine_severity ⟨1, "ph", "a", "above", none, some 100, 60, none, none, none, true⟩ 125 =
      .ok "critical" ∧
    determine_severity ⟨1, "ph", "a", "above", none, some 100, 60, none, none, none, true⟩ 105 =
      .ok "info" :=
  c7_determine_severity_graded.2.2.2.2
    ⟨1, "ph", "a", "above", none, some 100, 60, none, none, none, true⟩ rfl rfl

/-- C8: the raw code 19.258, whether it arrives as the string or as the float,
decodes to the enumeration label Not Empty under every sensor configuration,
including ones that declare a scaling coefficient; in particular the result is
never the coefficient-scaled number. -/
theorem c8_enum_precedes_coefficient (cfg : SensorConfig) :
    handle_sensor_value cfg (.pstr "19.258") = .enumLabel "Not Empty" ∧
    handle_sensor_value cfg (.pfloat "19.258" (19.258 : Rat)) = .enumLabel "Not Empty" ∧
    (∀ q : Rat, handle_sensor_value cfg (.pstr "19.258") ≠ .scaled q) ∧
    (∀ q : Rat, handle_sensor_value cfg (.pfloat "19.258" (19.258 : Rat)) ≠ .scaled q) := by
  have h1 : handle_sensor_value cfg (.pstr "19.258") = .enumLabel "Not Empty" := by
    simp [handle_sensor_value, pyStr]
  have h2 : handle_sensor_value cfg (.pfloat "19.258" (19.258 : Rat)) =
      .enumLabel "Not Empty" := by
    simp [handle_sensor_value, pyStr]
  refine ⟨h1, h2, ?_, ?_⟩
  · intro q hq
    rw [h1] at hq
    exact Decoded.noConfusion hq
  · intro q hq
    rw [h2] at hq
    exact Decoded.noConfusion hq

/-- C10: the value DeviceManager._check_alarms passes to the alarm check is
0.0 whenever the decoded sensor value is not an int or float (an enumeration
label, a string produced by coefficient -1, or a passed-through string); below
and out_of_range rules with positive minimum thresholds therefore trigger on
such label-valued readings. -/
theorem c10_nonnumeric_checked_as_zero :
    (∀ s : String, alarm_value_arg (.enumLabel s) = 0 ∧
      alarm_value_arg (.asString s) = 0 ∧
      alarm_value_arg (.unchanged (.pstr s)) = 0) ∧
    (∀ (now : DateTime) (a : AlarmRec) (sn fv s : String) (m : Rat),
      a.last_triggered = none → a.condition = "below" → a.threshold_min = some m →
      0 < m →
      check_alarm_conditions now [a] sn (alarm_value_arg (.enumLabel s)) fv =
        [(a, .belowDesc sn fv m)]) ∧
    (∀ (now : DateTime) (b : AlarmRec) (sn fv s : String) (lo hi : Rat),
      b.last_triggered = none → b.condition = "out_of_range" →
      b.threshold_min = some lo → b.threshold_max = some hi → 0 < lo →
      check_alarm_conditions now [b] sn (alarm_value_arg (.enumLabel s)) fv =
        [(b, .outOfRangeDesc sn fv lo hi)]) := by
  refine ⟨?_, ?_, ?_⟩
  · intro s
    exact ⟨rfl, rfl, rfl⟩
  · intro now a sn fv s m hlt hc ht hm
    simp [check_alarm_conditions, eval_alarm, alarm_value_arg, hlt, hc, ht, hm]
  · intro now b sn fv s lo hi hlt hc htmin htmax hlo
    have hor : (0 : Rat) < lo ∨ (0 : Rat) > hi := Or.inl hlo
    simp [check_alarm_conditions, eval_alarm, alarm_value_arg, hlt, hc, htmin, htmax, hor]

/-- C10 witness: a Redox ON / OFF reading decoding to the label Off evaluated
against a concrete below rule with threshold 5 and a concrete out_of_range
rule with range [2, 9]. -/
theorem c10_nonnumeric_checked_as_zero_witness :
    ((⟨1, "5.40", "low", "below", some 5, none, 60, none, none, none, true⟩ :
        AlarmRec).last_triggered = none ∧ (0 : Rat) < 5) ∧
    check_alarm_conditions ⟨100, 0⟩
        [⟨1, "5.40", "low", "below", some 5, none, 60, none, none, none, true⟩]
        "Redox ON / OFF" (alarm_value_arg (.enumLabel "Off")) "Off" =
      [(⟨1, "5.40", "low", "below", some 5, none, 60, none, none, none, true⟩,
        .belowDesc "Redox ON / OFF" "Off" 5)] ∧
    check_alarm_conditions ⟨100, 0⟩
        [⟨2, "5.40", "rng", "out_of_range", some 2, some 9, 60, none, none, none, true⟩]
        "Redox ON / OFF" (alarm_value_arg (.enumLabel "Off")) "Off" =
      [(⟨2, "5.40", "rng", "out_of_range", some 2, some 9, 60, none, none, none, true⟩,
        .outOfRangeDesc "Redox ON / OFF" "Off" 2 9)] :=
  ⟨⟨rfl, by norm_num⟩,
   c10_nonnumeric_checked_as_zero.2.1 ⟨100, 0⟩
     ⟨1, "5.40", "low", "below", some 5, none, 60, none, none, none, true⟩
     "Redox ON / OFF" "Off" "Off" 5 rfl rfl rfl (by norm_num),
   c10_nonnumeric_checked_as_zero.2.2 ⟨100, 0⟩
     ⟨2, "5.40", "rng", "out_of_range", some 2, some 9, 60, none, none, none, true⟩
     "Redox ON / OFF" "Off" "Off" 2 9 rfl rfl rfl rfl (by norm_num)⟩

/-- C2 counterexample: a rule that triggers during an evaluation step does not
get its last_triggered set in that step.  One concrete above rule (threshold
7.8, cooldown 60 minutes, never triggered) fires on value 8, yet after the
step the stored rule still has last_triggered = none rather than the current
time. -/
theorem c2_last_triggered_not_set_in_step :
    (check_alarms_step ⟨5000, 0⟩
        [⟨1, "4.182", "high pH", "above", none, some 7, 60, none, none, none, true⟩]
        "4.182" "pH" 8 "8.0" []).1 =
      [(⟨1, "4.182", "high pH", "above", none, some 7, 60, none, none, none, true⟩,
        .aboveDesc "pH" "8.0" 7)] ∧
    (check_alarms_step ⟨5000, 0⟩
        [⟨1, "4.182", "high pH", "above", none, some 7, 60, none, none, none, true⟩]
        "4.182" "pH" 8 "8.0" []).2.1 =
      [⟨1, "4.182", "high pH", "above", none, some 7, 60, none, none, none, true⟩] ∧
    (check_alarms_step ⟨5000, 0⟩
        [⟨1, "4.182", "high pH", "above", none, some 7, 60, none, none, none, true⟩]
        "4.182" "pH" 8 "8.0" []).2.1 ≠
      [⟨1, "4.182", "high pH", "above", none, some 7, 60, some ⟨5000, 0⟩, none, none,
        true⟩] := by
  refine ⟨rfl, rfl, ?_⟩
  intro hcontra
  injection hcontra with h1 h2
  exact Option.noConfusion (congrArg AlarmRec.last_triggered h1)

/-- C2 amended: a triggering evaluation step leaves every rule's
last_triggered unchanged (the step only queues a history record), so an
immediately following reading for the same sensor still sees the stale
last_triggered and re-triggers inside the cooldown window; last_triggered
becomes the trigger time only when the queued batch is later processed by
process_alarm_history_batch. -/
theorem c2_last_triggered_deferred_to_batch (now now2 : DateTime) (a : AlarmRec)
    (stype sn fv : String) (v t : Rat)
    (hlt : a.last_triggered = none) (hc : a.condition = "above")
    (ht : a.threshold_max = some t) (hv : v > t) :
    (check_alarms_step now [a] stype sn v fv []).1 = [(a, .aboveDesc sn fv t)] ∧
    (check_alarms_step now [a] stype sn v fv []).2.1 = [a] ∧
    (check_alarms_step now2 [a] stype sn v fv
        (check_alarms_step now [a] stype sn v fv []).2.2).1 =
      [(a, .aboveDesc sn fv t)] ∧
    process_alarm_history_batch (check_alarms_step now [a] stype sn v fv []).2.2 [a] =
      [{ a with last_triggered := some now }] := by
  have htrig : ∀ n : DateTime, check_alarm_conditions n [a] sn v fv =
      [(a, .aboveDesc sn fv t)] := by
    intro n
    simp [check_alarm_conditions, eval_alarm, hlt, hc, ht, hv]
  refine ⟨htrig now, rfl, htrig now2, ?_⟩
  simp [check_alarms_step, htrig now, process_alarm_history_batch]

/-- C2 amended witness: the concrete rule of the counterexample, evaluated at
two consecutive times. -/
theorem c2_last_triggered_deferred_to_batch_witness :
    ((⟨1, "4.182", "high pH", "above", none, some 7, 60, none, none, none, true⟩ :
        AlarmRec).last_triggered = none ∧ (8 : Rat) > 7) ∧
    ((check_alarms_step ⟨5000, 0⟩
        [⟨1, "4.182", "high pH", "above", none, some 7, 60, none, none, none, true⟩]
        "4.182" "pH" 8 "8.0" []).1 =
      [(⟨1, "4.182", "high pH", "above", none, some 7, 60, none, none, none, true⟩,
        .aboveDesc "pH" "8.0" 7)] ∧
    (check_alarms_step ⟨5000, 0⟩
        [⟨1, "4.182", "high pH", "above", none, some 7, 60, none, none, none, true⟩]
        "4.182" "pH" 8 "8.0" []).2.1 =
      [⟨1, "4.182", "high pH", "above", none, some 7, 60, none, none, none, true⟩] ∧
    (check_alarms_step ⟨5000, 1⟩
        [⟨1, "4.182", "high pH", "above", none, some 7, 60, none, none, none, true⟩]
        "4.182" "pH" 8 "8.0"
        (check_alarms_step ⟨5000, 0⟩
          [⟨1, "4.182", "high pH", "above", none, some 7, 60, none, none, none, true⟩]
          "4.182" "pH" 8 "8.0" []).2.2).1 =
      [(⟨1, "4.182", "high pH", "above", none, some 7, 60, none, none, none, true⟩,
        .aboveDesc "pH" "8.0" 7)] ∧
    process_alarm_history_batch
        (check_alarms_step ⟨5000, 0⟩
          [⟨1, "4.182", "high pH", "above", none, some 7, 60, none, none, none, true⟩]
          "4.182" "pH" 8 "8.0" []).2.2
        [⟨1, "4.182", "high pH", "above", none, some 7, 60, none, none, none, true⟩] =
      [⟨1, "4.182", "high pH", "above", none, some 7, 60, some ⟨5000, 0⟩, none, none,
        true⟩]) :=
  ⟨⟨rfl, by norm_num⟩,
   c2_last_triggered_deferred_to_batch ⟨5000, 0⟩ ⟨5000, 1⟩
     ⟨1, "4.182", "high pH", "above", none, some 7, 60, none, none, none, true⟩
     "4.182" "pH" "8.0" 8 7 rfl rfl rfl (by norm_num)⟩

/-- C3: the threshold validator reads the field under validation from the
values dict of previously validated fields, where it never is, so it rejects
an above rule that does supply threshold_max while accepting above and equals
rules with no thresholds at all, and it never checks the equals condition or
min < max (an equals rule with threshold_min 10 > threshold_max 5 passes). -/
theorem c3_threshold_validation_misfires :
    validate_alarm_base ⟨"4.182", "high pH", "above", none, some (some (15/2))⟩ =
      .error "threshold_max is required for \"above\" condition" ∧
    validate_alarm_base ⟨"4.182", "no thresholds", "above", none, none⟩ =
      .ok ⟨"above", none, none⟩ ∧
    validate_alarm_base ⟨"4.182", "no thresholds", "equals", none, none⟩ =
      .ok ⟨"equals", none, none⟩ ∧
    validate_alarm_base ⟨"4.182", "inverted", "equals", some (some 10), some (some 5)⟩ =
      .ok ⟨"equals", some 10, some 5⟩ := by
  refine ⟨rfl, rfl, rfl, rfl⟩

/-- C9: the same enabled above rule fires when served as an ORM row from the
database path, but the cache-hit path hands check_alarm_conditions plain JSON
dicts whose first attribute access (alarm.last_triggered) raises
AttributeError, so evaluation after a cache hit raises instead of returning
the triggered list. -/
theorem c9_cache_path_raises_attribute_error :
    check_alarm_conditions_cached none
        [⟨1, "4.182", "high pH", "above", none, some 5, 60, none, none, none, true⟩]
        ⟨100, 0⟩ "4.182" "pH" 8 "8.0" =
      .ok [(.orm ⟨1, "4.182", "high pH", "above", none, some 5, 60, none, none, none, true⟩,
            .aboveDesc "pH" "8.0" 5)] ∧
    check_alarm_conditions_cached
        (some [alarm_cache_dict
          ⟨1, "4.182", "high pH", "above", none, some 5, 60, none, none, none, true⟩])
        [⟨1, "4.182", "high pH", "above", none, some 5, 60, none, none, none, true⟩]
        ⟨100, 0⟩ "4.182" "pH" 8 "8.0" =
      .error "AttributeError: dict object has no attribute last_triggered" := by
  refine ⟨rfl, rfl⟩

theorem avail_of_disabled (now : DateTime) (st : CircuitState) (u : String)
    (d : DateTime) (hd : alookup st.disabled_until u = some d)
    (hlt : dtLt now d = true) :
    is_webhook_available now st u = (false, st) := by
  simp [is_webhook_available, hd, hlt]

theorem avail_preserves_disabled (now : DateTime) (st : CircuitState) (w u : String)
    (d : DateTime) (hd : alookup st.disabled_until u = some d) (hne : w ≠ u) :
    alookup (is_webhook_available now st w).2.disabled_until u = some d := by
  unfold is_webhook_available
  cases hw : alookup st.disabled_until w with
  | none => simpa using hd
  | some dw =>
    by_cases hlt : dtLt now dw
    · simp [hlt, hd]
    · simp [hlt, alookup_aerase_ne st.disabled_until w u hne, hd]

theorem maybe_task_disabled (now : DateTime) (st : CircuitState)
    (opt : Option String) (nt u : String) (d : DateTime)
    (hd : alookup st.disabled_until u = some d) (hlt : dtLt now d = true) :
    (∀ x ∈ (maybe_task now st opt nt).1, x.1 ≠ u) ∧
    alookup (maybe_task now st opt nt).2.disabled_until u = some d := by
  cases opt with
  | none => exact ⟨by simp [maybe_task], by simpa [maybe_task] using hd⟩
  | some w =>
    by_cases hwu : w = u
    · subst hwu
      have h := avail_of_disabled now st w d hd hlt
      refine ⟨?_, ?_⟩
      · intro x hx
        simp [maybe_task, h] at hx
      · simpa [maybe_task, h] using hd
    · refine ⟨?_, ?_⟩
      · intro x hx
        by_cases hq : (is_webhook_available now st w).1
        · simp [maybe_task, hq] at hx
          rw [hx]
          exact hwu
        · simp [maybe_task, hq] at hx
      · exact avail_preserves_disabled now st w u d hd hwu

theorem collect_tasks_disabled (alarm : AlarmRec) (settings : NotifySettings)
    (now : DateTime) (st : CircuitState) (u : String) (d : DateTime)
    (hw : alarm.webhook_url = some u)
    (hd : alookup st.disabled_until u = some d) (hlt : dtLt now d = true) :
    ∀ x ∈ (collect_webhook_tasks alarm settings now st).1, x.1 ≠ u := by
  have h1 : maybe_task now st alarm.webhook_url "alarm_webhook" = ([], st) := by
    rw [hw]
    simp [maybe_task, avail_of_disabled now st u d hd hlt]
  have h2 := maybe_task_disabled now st settings.ALARM_WEBHOOK_URL "global_webhook" u d hd hlt
  intro x hx
  unfold collect_webhook_tasks at hx
  rw [h1] at hx
  simp at hx
  cases hx with
  | inl hx2 => exact h2.1 x hx2
  | inr hx3 =>
    cases hmail : alarm.email with
    | none =>
      rw [hmail] at hx3
      simp at hx3
    | some em =>
      rw [hmail] at hx3
      have h3 := maybe_task_disabled now
        (maybe_task now st settings.ALARM_WEBHOOK_URL "global_webhook").2
        settings.EMAIL_WEBHOOK_URL "email" u d h2.2 hlt
      exact h3.1 x hx3

/-- C4 counterexample: an alarm whose only configured target URL is disabled
until a future time is skipped without a network call, but the dispatch result
map comes back empty: it contains no synthetic failure entry (no entry at all)
for the skipped target. -/
theorem c4_skipped_target_has_no_result_entry :
    send_alarm_notification
        ⟨1, "4.182", "high pH", "above", none, some 5, 60, none, some "http://t", none, true⟩
        ⟨none, none⟩ 8 ⟨100, 0⟩
        ⟨[("http://t", 5)], [("http://t", ⟨200, 0⟩)]⟩
        (fun _ _ => .http 200 "ok") =
      ([], ⟨[("http://t", 5)], [("http://t", ⟨200, 0⟩)]⟩, .ok []) ∧
    alookup ([] : List (String × SendResult)) "alarm_webhook" = none :=
  ⟨rfl, rfl⟩

/-- C4 amended: a configured target URL whose disabled-until time is in the
future is skipped without any network call (it never appears among the URLs
posted to), and whenever the dispatch returns a result map at all, that map
contains no entry for the skipped alarm-webhook target (in particular, when it
was the only configured target the map is empty). -/
theorem c4_disabled_target_skipped_silently (alarm : AlarmRec)
    (settings : NotifySettings) (value : Rat) (now : DateTime) (st : CircuitState)
    (net : String → String → SendOutcome) (u : String) (d : DateTime)
    (hw : alarm.webhook_url = some u)
    (hd : alookup st.disabled_until u = some d) (hlt : dtLt now d = true) :
    u ∉ (send_alarm_notification alarm settings value now st net).1 ∧
    (∀ m, (send_alarm_notification alarm settings value now st net).2.2 = .ok m →
      alookup m "alarm_webhook" = none) := by
  unfold send_alarm_notification
  cases hsev : determine_severity alarm value with
  | error e => simp
  | ok sev =>
    have hne := collect_tasks_disabled alarm settings now st u d hw hd hlt
    cases htasks : (collect_webhook_tasks alarm settings now st).1 with
    | nil =>
      refine ⟨by simp [htasks], ?_⟩
      intro m hm
      simp [htasks] at hm
      rw [hm]
      rfl
    | cons t0 tl =>
      refine ⟨?_, ?_⟩
      · intro hmem
        simp only [htasks] at hmem
        rw [List.mem_map] at hmem
        obtain ⟨x, hx, hxu⟩ := hmem
        refine hne x ?_ hxu
        rw [htasks]
        exact hx
      · intro m hm
        simp [htasks] at hm

/-- C4 amended witness: the concrete disabled target of the counterexample. -/
theorem c4_disabled_target_skipped_silently_witness :
    ((⟨1, "4.182", "high pH", "above", none, some 5, 60, none, some "http://t", none, true⟩ :
        AlarmRec).webhook_url = some "http://t" ∧
      alookup (CircuitState.mk [("http://t", 5)] [("http://t", ⟨200, 0⟩)]).disabled_until
          "http://t" = some ⟨200, 0⟩ ∧
      dtLt ⟨100, 0⟩ ⟨200, 0⟩ = true) ∧
    ("http://t" ∉ (send_alarm_notification
        ⟨1, "4.182", "high pH", "above", none, some 5, 60, none, some "http://t", none, true⟩
        ⟨none, none⟩ 8 ⟨100, 0⟩
        ⟨[("http://t", 5)], [("http://t", ⟨200, 0⟩)]⟩
        (fun _ _ => .http 200 "ok")).1 ∧
      (∀ m, (send_alarm_notification
          ⟨1, "4.182", "high pH", "above", none, some 5, 60, none, some "http://t", none, true⟩
          ⟨none, none⟩ 8 ⟨100, 0⟩
          ⟨[("http://t", 5)], [("http://t", ⟨200, 0⟩)]⟩
          (fun _ _ => .http 200 "ok")).2.2 = .ok m →
        alookup m "alarm_webhook" = none)) :=
  ⟨⟨rfl, rfl, rfl⟩,
   c4_disabled_target_skipped_silently
     ⟨1, "4.182", "high pH", "above", none, some 5, 60, none, some "http://t", none, true⟩
     ⟨none, none⟩ 8 ⟨100, 0⟩
     ⟨[("http://t", 5)], [("http://t", ⟨200, 0⟩)]⟩
     (fun _ _ => .http 200 "ok") "http://t" ⟨200, 0⟩ rfl rfl rfl⟩

/-- C5 counterexample: the Automatic encode table is not the inverse of the
decode enumeration.  Encoding the label Off yields the raw code 19.18, which
handle_sensor_value decodes to On; encoding Full yields 19.258, which decodes
to Not Empty. -/
theorem c5_encode_decode_mismatch :
    alookup VALUE_TO_MQTT_AUTOMATIC "Off" = some "19.18" ∧
    handle_sensor_value
        (create_sensor_config "Redox ON / OFF" none none none none "select"
          (some (["On", "Off"].map .pstr)))
        (.pstr "19.18") = .enumLabel "On" ∧
    Decoded.enumLabel "On" ≠ Decoded.enumLabel "Off" ∧
    alookup VALUE_TO_MQTT_AUTOMATIC "Full" = some "19.258" ∧
    handle_sensor_value
        (create_sensor_config "Redox ON / OFF" none none none none "select"
          (some (["On", "Off"].map .pstr)))
        (.pstr "19.258") = .enumLabel "Not Empty" ∧
    Decoded.enumLabel "Not Empty" ≠ Decoded.enumLabel "Full" :=
  ⟨rfl, rfl, by decide, rfl, rfl, by decide⟩

/-- C5 amended: encoding then decoding returns the original label only for
Auto, Auto Plus, Constant production and Empty; the label Off encodes to
19.18, which decodes to On, and Full encodes to 19.258, which decodes to
Not Empty, under every sensor configuration. -/
theorem c5_roundtrip_holds_only_partially (cfg : SensorConfig) :
    (alookup VALUE_TO_MQTT_AUTOMATIC "Auto" = some "19.195" ∧
      handle_sensor_value cfg (.pstr "19.195") = .enumLabel "Auto") ∧
    (alookup VALUE_TO_MQTT_AUTOMATIC "Auto Plus" = some "19.115" ∧
      handle_sensor_value cfg (.pstr "19.115") = .enumLabel "Auto Plus") ∧
    (alookup VALUE_TO_MQTT_AUTOMATIC "Constant production" = some "19.106" ∧
      handle_sensor_value cfg (.pstr "19.106") = .enumLabel "Constant production") ∧
    (alookup VALUE_TO_MQTT_AUTOMATIC "Empty" = some "19.259" ∧
      handle_sensor_value cfg (.pstr "19.259") = .enumLabel "Empty") ∧
    (alookup VALUE_TO_MQTT_AUTOMATIC "Off" = some "19.18" ∧
      handle_sensor_value cfg (.pstr "19.18") = .enumLabel "On") ∧
    (alookup VALUE_TO_MQTT_AUTOMATIC "Full" = some "19.258" ∧
      handle_sensor_value cfg (.pstr "19.258") = .enumLabel "Not Empty") :=
  ⟨⟨rfl, rfl⟩, ⟨rfl, rfl⟩, ⟨rfl, rfl⟩, ⟨rfl, rfl⟩, ⟨rfl, rfl⟩, ⟨rfl, rfl⟩⟩

/-- C6 counterexample: for a writable select on a known device family a
non-label display value is never encoded through the coefficient: the pH
Target select (sensor 4.2, coefficient 10) of an Automatic SALT device encodes
the display value 7.2 to None, not to round(7.2 * 10) = some 72; likewise a
coefficient-less select does not pass the display value through but also
returns None. -/
theorem c6_known_families_return_none :
    get_mqtt_value_for_select "Automatic SALT" "4.2" "7.2" = none ∧
    get_mqtt_value_for_select "Automatic SALT" "4.2" "7.2" ≠ some "72" ∧
    (get_sensor_config_for_id "Automatic SALT" "4.2").map SensorConfig.coefficient =
      some (some 10) ∧
    get_mqtt_value_for_select "Automatic SALT" "5.40" "banana" = none ∧
    get_mqtt_value_for_select "Automatic SALT" "5.40" "banana" ≠ some "banana" :=
  ⟨rfl, by decide, rfl, rfl, by decide⟩

/-- C6 amended: for the known device families the encode function answers a
non-label display value from the enumeration table alone, returning None (the
coefficient fallback is unreachable for them); only for an unrecognized device
type, whose sensor-config table is empty, is the display value passed through
unchanged. -/
theorem c6_coefficient_fallback_dead (device_type sensor_id display_value : String) :
    ((device_type = "Automatic SALT" ∨ device_type = "Automatic Cl-pH") →
      alookup VALUE_TO_MQTT_AUTOMATIC display_value = none →
      get_mqtt_value_for_select device_type sensor_id display_value = none) ∧
    (device_type = "PM5 Chlorine" →
      alookup VALUE_TO_MQTT_PM5 display_value = none →
      get_mqtt_value_for_select device_type sensor_id display_value = none) ∧
    (device_type ≠ "Automatic SALT" → device_type ≠ "Automatic Cl-pH" →
      device_type ≠ "PM5 Chlorine" →
      get_mqtt_value_for_select device_type sensor_id display_value =
        some display_value) := by
  refine ⟨?_, ?_, ?_⟩
  · intro hdt hnone
    cases hdt with
    | inl h => simp [get_mqtt_value_for_select, h, hnone]
    | inr h =>
      have hne : device_type ≠ "Automatic SALT" := by rw [h]; decide
      simp [get_mqtt_value_for_select, h, hnone]
  · intro hdt hnone
    have h1 : device_type ≠ "Automatic SALT" := by rw [hdt]; decide
    have h2 : device_type ≠ "Automatic Cl-pH" := by rw [hdt]; decide
    simp [get_mqtt_value_for_select, hdt, h1, h2, hnone]
  · intro h1 h2 h3
    simp [get_mqtt_value_for_select, h1, h2, h3, get_sensor_config_for_id,
      get_sensor_types_for_device, alookup]

/-- C6 amended witness: the pH Target display value 7.2 on an Automatic SALT
device (encoded to None), and an unknown device type (passed through). -/
theorem c6_coefficient_fallback_dead_witness :
    (("Automatic SALT" = "Automatic SALT" ∨ "Automatic SALT" = "Automatic Cl-pH") ∧
      alookup VALUE_TO_MQTT_AUTOMATIC "7.2" = none ∧
      ("Foo" : String) ≠ "Automatic SALT" ∧ ("Foo" : String) ≠ "Automatic Cl-pH" ∧
      ("Foo" : String) ≠ "PM5 Chlorine") ∧
    get_mqtt_value_for_select "Automatic SALT" "4.2" "7.2" = none ∧
    get_mqtt_value_for_select "Foo" "4.2" "7.2" = some "7.2" :=
  ⟨⟨Or.inl rfl, rfl, by decide, by decide, by decide⟩,
   (c6_coefficient_fallback_dead "Automatic SALT" "4.2" "7.2").1 (Or.inl rfl) rfl,
   (c6_coefficient_fallback_dead "Foo" "4.2" "7.2").2.2 (by decide) (by decide) (by decide)⟩

/-- C5 amended witness: the Redox Mode select configuration round-trips the
label Auto. -/
theorem c5_roundtrip_holds_only_partially_witness :
    alookup VALUE_TO_MQTT_AUTOMATIC "Auto" = some "19.195" ∧
    handle_sensor_value
        (create_sensor_config "Redox Mode" none none none none "select"
          (some (["Auto", "Auto Plus", "Constant production"].map .pstr)))
        (.pstr "19.195") = .enumLabel "Auto" :=
  (c5_roundtrip_holds_only_partially
    (create_sensor_config "Redox Mode" none none none none "select"
      (some (["Auto", "Auto Plus", "Constant production"].map .pstr)))).1

/-- C8 witness: the pH configuration with coefficient 10 still decodes the raw
string 19.258 to the label Not Empty. -/
theorem c8_enum_precedes_coefficient_witness :
    handle_sensor_value
        (create_sensor_config "pH" (some "ph") (some "measurement") (some 10) none
          "sensor" none)
        (.pstr "19.258") = .enumLabel "Not Empty" :=
  (c8_enum_precedes_coefficient
    (create_sensor_config "pH" (some "ph") (some "measurement") (some 10) none
      "sensor" none)).1
